import Mathlib

/-!
Shallow embedding of the gigs-rm-client connection-handling code:
`src/Module/serial_handler.py` (class `SerialHandler`) and
`src/Module/tcp_handler.py` (class `TCPHandler`).

Modelling conventions:
* A serial port object is a record carrying its `is_open` flag and the list
  of byte strings written to it so far.
* The Python dict `self.serial_ports` is an association list
  `List (String × SerialPort)` (insertion order preserved, keys unique in
  every reachable state; theorems take `Nodup` hypotheses where needed).
* Library calls that can raise (`serial.Serial`, `port.write`, `setDTR`,
  `socket.recv`, ...) are modelled by explicit outcome parameters: an
  oracle function or an outcome value says, for each attempted call,
  whether the Python call would have succeeded or raised.
* Python's `float(s)` and `str.isalnum` are library functions outside this
  repository; the parser is parametric in them (`pyFloat : String → Option α`
  returns `some v` exactly when `float(s)` succeeds, `isAlnumChar` decides a
  single character's alphanumericity; `str.isalnum` itself is nonempty ∧
  all-alnum, embedded as `pyIsalnum`).
* `print` logging is modelled only where a claim talks about it (the
  monitor loops), as a list of emitted log lines.
-/

/-- Event kinds, from `src/Module/events.py` as used by
`SerialHandler._parse_serial_data`. -/
inductive EventType where
  | RFID_DETECTED
  | SCORE_RECEIVED
  | UNKNOWN
deriving Repr, DecidableEq

/-- Input sources; the serial handler only ever emits `SERIAL`. -/
inductive InputSource where
  | SERIAL
deriving Repr, DecidableEq

/-- A `GameEvent` as constructed by `_parse_serial_data`: kind, source, the
raw line, and an optional numeric score.  The score type `α` is a parameter
standing for Python's float. -/
structure GameEvent (α : Type) where
  kind : EventType
  source : InputSource
  raw : String
  score : Option α := none
deriving Repr, DecidableEq

/-- Python's `str.isalnum`: true iff the string is nonempty and every
character is alphanumeric (the per-character test `isAlnumChar` is a
parameter). -/
def pyIsalnum (isAlnumChar : Char → Bool) (s : String) : Bool :=
  !s.isEmpty && s.toList.all isAlnumChar

/-- Embedding of `SerialHandler._parse_serial_data` (serial_handler.py lines 90-105),
translated branch by branch:
`if not s: return None`; then the 8-character-alphanumeric RFID branch;
then the legacy `"a"` RFID branch; then `float(s)` (`pyFloat s = some v`
models success, `none` models `ValueError`) giving SCORE_RECEIVED; the
final fall-through gives UNKNOWN. -/
def _parse_serial_data {α : Type} (isAlnumChar : Char → Bool)
    (pyFloat : String → Option α) (s : String) : Option (GameEvent α) :=
  if s.isEmpty then none
  else if s.length == 8 && pyIsalnum isAlnumChar s then
    some { kind := .RFID_DETECTED, source := .SERIAL, raw := s }
  else if s == "a" then
    some { kind := .RFID_DETECTED, source := .SERIAL, raw := s }
  else
    match pyFloat s with
    | some v => some { kind := .SCORE_RECEIVED, source := .SERIAL, raw := s,
                       score := some v }
    | none => some { kind := .UNKNOWN, source := .SERIAL, raw := s }

/-- A `serial.Serial` port object as the handler observes it: its
`is_open` flag and the list of messages written to it so far. -/
structure SerialPort where
  is_open : Bool
  written : List String
deriving Repr, DecidableEq

/-- A freshly opened `serial.Serial(device, 115200, timeout=1)`:
open, nothing written yet. -/
def freshPort : SerialPort := { is_open := true, written := [] }

/-- The mutable state of a `SerialHandler` relevant to the claims:
`self.serial_ports` (dict, as an association list in insertion order),
`self.excluded_ports`, and `self.is_connected`. -/
structure HandlerState where
  serial_ports : List (String × SerialPort)
  excluded_ports : List String
  is_connected : Bool
deriving Repr, DecidableEq

/-- The keys of the `serial_ports` dict. -/
def keys (l : List (String × SerialPort)) : List String := l.map Prod.fst

/-- Embedding of `self.serial_ports.get(device)`. -/
def lookupPort (d : String) : List (String × SerialPort) → Option SerialPort
  | [] => none
  | (d', p) :: rest => if d' = d then some p else lookupPort d rest

/-- Embedding of `self.serial_ports[device] = p` for a key already present: replace the
value in place (Python dicts keep the original position of an existing
key). -/
def setPort (l : List (String × SerialPort)) (d : String) (p : SerialPort) :
    List (String × SerialPort) :=
  l.map (fun e => if e.1 = d then (d, p) else e)

/-- Embedding of `SerialHandler.is_ready` (lines 107-109): returns `self.is_connected`. -/
def is_ready (s : HandlerState) : Bool := s.is_connected

/-- Embedding of `SerialHandler.cleanup` (lines 115-119): close every open port; the
dict itself and `is_connected` are untouched. -/
def cleanup (s : HandlerState) : HandlerState :=
  { s with serial_ports :=
      s.serial_ports.map (fun e =>
        if e.2.is_open then (e.1, { e.2 with is_open := false }) else e) }

/-- Where the per-port reset protocol of `reset_and_reconnect_port` can
fail: `success` means no call raised; `failToggle` means one of the
`setDTR` calls raised (before `port.close()` ran); `failReopen` means the
`serial.Serial(device, ...)` reopen raised (after the old port was
closed). -/
inductive ResetOutcome where
  | success
  | failToggle
  | failReopen
deriving Repr, DecidableEq

/-- Embedding of `SerialHandler.reset_and_reconnect_port` (lines 121-147).  Returns the
new state together with the Python return value (`some true`,
`some false`, or `none` for the fall-through `return None` when the stored
port is not open).  On `failToggle` the stored port is untouched; on
`failReopen` the stored port was closed before the reopen raised, and the
(closed) old port object stays in the dict; in every case the `except`
branch only prints and returns `False`. -/
def reset_and_reconnect_port (s : HandlerState) (device : String)
    (outcome : ResetOutcome) : HandlerState × Option Bool :=
  match lookupPort device s.serial_ports with
  | none => (s, some false)
  | some port =>
    if port.is_open then
      match outcome with
      | .success =>
          ({ s with serial_ports := setPort s.serial_ports device freshPort },
           some true)
      | .failToggle => (s, some false)
      | .failReopen =>
          ({ s with serial_ports :=
               setPort s.serial_ports device { port with is_open := false } },
           some false)
    else (s, none)

/-- The loop body of `SerialHandler.reset_and_reconnect_ports` (lines
149-152): fold `reset_and_reconnect_port` over a snapshot of the keys. -/
def resetAll (outcomes : String → ResetOutcome) :
    HandlerState → List String → HandlerState
  | s, [] => s
  | s, d :: rest =>
      resetAll outcomes (reset_and_reconnect_port s d (outcomes d)).1 rest

/-- Embedding of `SerialHandler.reset_and_reconnect_ports` (lines 149-152):
`for device in list(self.serial_ports.keys()): self.reset_and_reconnect_port(device)`. -/
def reset_and_reconnect_ports (s : HandlerState)
    (outcomes : String → ResetOutcome) : HandlerState :=
  resetAll outcomes s (keys s.serial_ports)

/-- The loop body of `SerialHandler.send_message` (lines 160-169) over the
dict entries.  `writeOk d` says whether the `port.write`/`port.flush` pair
on device `d` succeeds or raises (the raise is caught per entry and the
loop continues).  A successful write appends `message + "\n"` to the
port's written log and bumps `sent_count`; a closed port is skipped. -/
def writeAll (writeOk : String → Bool) (message : String) :
    List (String × SerialPort) → List (String × SerialPort) × Nat
  | [] => ([], 0)
  | (d, p) :: rest =>
    let r := writeAll writeOk message rest
    if p.is_open && writeOk d then
      ((d, { p with written := p.written ++ [message ++ "\n"] }) :: r.1,
       r.2 + 1)
    else ((d, p) :: r.1, r.2)

/-- Embedding of `SerialHandler.send_message` (lines 154-172).  Returns the new state
and the final value of the internal counter `sent_count` (the code reports
it via its log rather than returning it; the early `return` on
`not self.is_connected` performs no write, so its count is 0). -/
def send_message (s : HandlerState) (message : String)
    (writeOk : String → Bool) : HandlerState × Nat :=
  if !s.is_connected then (s, 0)
  else
    let r := writeAll writeOk message s.serial_ports
    ({ s with serial_ports := r.1 }, r.2)

/-- The `for port in ports:` loop of the `setup_worker` discovery round
(serial_handler.py lines 35-47).  `osPorts` is the device list returned by
`serial.tools.list_ports.comports()`; `openOk d` says whether
`serial.Serial(d, 115200, timeout=1)` succeeds.  Returns the new state,
`connected_count`, and the list of devices on which an open was actually
attempted (excluded devices and devices already in the dict are skipped
before any attempt). -/
def discoverPorts (openOk : String → Bool) :
    HandlerState → List String → HandlerState × Nat × List String
  | s, [] => (s, 0, [])
  | s, d :: rest =>
    if d ∈ s.excluded_ports then discoverPorts openOk s rest
    else if d ∈ keys s.serial_ports then discoverPorts openOk s rest
    else if openOk d then
      let r := discoverPorts openOk
        { s with serial_ports := s.serial_ports ++ [(d, freshPort)] } rest
      (r.1, r.2.1 + 1, d :: r.2.2)
    else
      let r := discoverPorts openOk s rest
      (r.1, r.2.1, d :: r.2.2)

/-- One iteration of the `setup_worker` loop (serial_handler.py lines
30-61): run a discovery round; if `connected_count > 0`, set
`is_connected = True` and reset-and-reconnect every registered port, then
return; otherwise fall through to the next iteration.  Returns the new
state and the devices on which opens were attempted. -/
def setupRound (s : HandlerState) (osPorts : List String)
    (openOk : String → Bool) (outcomes : String → ResetOutcome) :
    HandlerState × List String :=
  let r := discoverPorts openOk s osPorts
  if 0 < r.2.1 then
    let s2 := { r.1 with is_connected := true }
    (resetAll outcomes s2 (keys s2.serial_ports), r.2.2)
  else (r.1, r.2.2)

/-- The `setup_worker` loop (`while not self.is_connected:`): iterate
`setupRound` over a finite trace of per-round environments, stopping as
soon as `is_connected` holds.  Returns the final state and every device on
which an open was attempted in any round. -/
def setupLoop :
    HandlerState → List (List String × (String → Bool) × (String → ResetOutcome)) →
    HandlerState × List String
  | s, [] => (s, [])
  | s, (osPorts, openOk, outcomes) :: rest =>
    if s.is_connected then (s, [])
    else
      let r := setupRound s osPorts openOk outcomes
      let r' := setupLoop r.1 rest
      (r'.1, r.2 ++ r'.2)

/-- One iteration of a per-port monitor loop in which a line was actually
read: either `readline` produced the stripped string `data`, or the read
raised. -/
inductive ReadOutcome where
  | ok (data : String)
  | err
deriving Repr, DecidableEq

/-- The result of running a monitor loop over a finite trace of read
iterations: the handler state afterwards, the raw lines handed to
`_dispatch_serial_input`, the error lines printed, and whether the loop
was exited (`break` / falling off the loop body). -/
structure MonitorResult where
  state : HandlerState
  raws : List String
  log : List String
  exited : Bool
deriving Repr, DecidableEq

/-- The error line printed by the serial port monitor's `except` branch. -/
def readErrorLog (port_device : String) : String :=
  "Error reading from " ++ port_device

/-- The `port_monitor` loop of `SerialHandler.start_port_monitoring`
(lines 69-79), run over a finite trace of read iterations.  A successful
read dispatches the raw line; any read exception prints the error and
`break`s out of the loop, ignoring everything after it.  The handler
state is threaded through untouched, exactly as in the source (the loop
body reads the port and dispatches, and never assigns any handler
attribute). -/
def portMonitor (port_device : String) :
    HandlerState → List ReadOutcome → MonitorResult
  | s, [] => { state := s, raws := [], log := [], exited := false }
  | s, .ok d :: rest =>
    let r := portMonitor port_device s rest
    { r with raws := d :: r.raws }
  | s, .err :: _ =>
    { state := s, raws := [], log := [readErrorLog port_device],
      exited := true }

/-- Embedding of `_dispatch_serial_input` (lines 84-87) applied to every raw line a
monitor read: parse each line and forward the events that are not
`None` to the `_on_event` callback. -/
def dispatchedEvents {α : Type} (isAlnumChar : Char → Bool)
    (pyFloat : String → Option α) (raws : List String) : List (GameEvent α) :=
  raws.filterMap (_parse_serial_data isAlnumChar pyFloat)

/-- A TCP socket object as `TCPHandler` observes it: the list of byte
strings passed to `sendall`. -/
structure TCPSocket where
  sent : List String
deriving Repr, DecidableEq

/-- The mutable state of a `TCPHandler` relevant to the claims:
`self.tcp_socket` and `self.is_connected`. -/
structure TCPState where
  tcp_socket : Option TCPSocket
  is_connected : Bool
deriving Repr, DecidableEq

/-- Embedding of `TCPHandler.send_message` (tcp_handler.py lines 40-48).  `sendOk`
says whether `sendall` succeeds or raises.  On success the encoded
`str(message)` — with no terminator appended — is recorded on the socket;
on failure `is_connected` is set to `False`.  When the guard
`self.tcp_socket and self.is_connected` fails, nothing happens. -/
def tcp_send_message (s : TCPState) (message : String) (sendOk : Bool) :
    TCPState :=
  match s.tcp_socket with
  | some sock =>
    if s.is_connected then
      if sendOk then
        { s with tcp_socket := some { sock with sent := sock.sent ++ [message] } }
      else { s with is_connected := false }
    else s
  | none => s

/-- One iteration of the `tcp_monitor` loop in which the guard held and
`recv` ran: it returned nonempty `data`, returned empty bytes (peer
closed), or raised. -/
inductive TCPReadOutcome where
  | ok (data : String)
  | closed
  | err
deriving Repr, DecidableEq

/-- The result of running the `tcp_monitor` loop over a finite trace:
state afterwards, the messages handed to `message_callback`, the lines
printed, and whether the loop was exited. -/
structure TCPMonitorResult where
  state : TCPState
  msgs : List String
  log : List String
  exited : Bool
deriving Repr, DecidableEq

/-- The `tcp_monitor` loop of `TCPHandler.start_monitoring` (tcp_handler.py
lines 52-66), run over a finite trace of iterations.  Each iteration
checks `if self.tcp_socket and self.is_connected:`; when the guard fails
the iteration does nothing.  Nonempty `recv` data goes to the callback;
empty data prints "Connection lost" and clears `is_connected`; a `recv`
exception hits the bare `except:` which only clears `is_connected` —
nothing is printed and the `while True:` loop is never exited (there is no
`break` or `return` in the loop body). -/
def tcpMonitor : TCPState → List TCPReadOutcome → TCPMonitorResult
  | s, [] => { state := s, msgs := [], log := [], exited := false }
  | s, o :: rest =>
    if s.tcp_socket.isSome && s.is_connected then
      match o with
      | .ok d =>
        let r := tcpMonitor s rest
        { r with msgs := d :: r.msgs }
      | .closed =>
        let r := tcpMonitor { s with is_connected := false } rest
        { r with log := "Connection lost" :: r.log }
      | .err => tcpMonitor { s with is_connected := false } rest
    else
      tcpMonitor s rest

/-- The operations that can touch a `SerialHandler`'s state after
construction, each with the environment parameters that resolve its
library calls: a broadcast send, a single-port reset, the reset-all pass,
a `setup_worker` round, a finite run of a port monitor, and `cleanup`. -/
inductive HandlerOp where
  | sendMsg (message : String) (writeOk : String → Bool)
  | resetPort (device : String) (outcome : ResetOutcome)
  | resetPorts (outcomes : String → ResetOutcome)
  | discover (osPorts : List String) (openOk : String → Bool)
      (outcomes : String → ResetOutcome)
  | monitor (port_device : String) (outs : List ReadOutcome)
  | doCleanup

/-- Apply one operation to the handler state. -/
def applyOp : HandlerOp → HandlerState → HandlerState
  | .sendMsg m w, s => (send_message s m w).1
  | .resetPort d o, s => (reset_and_reconnect_port s d o).1
  | .resetPorts o, s => reset_and_reconnect_ports s o
  | .discover ps ok o, s => (setupRound s ps ok o).1
  | .monitor pd outs, s => (portMonitor pd s outs).state
  | .doCleanup, s => cleanup s

/-- Run a finite trace of operations. -/
def runOps (ops : List HandlerOp) (s : HandlerState) : HandlerState :=
  ops.foldl (fun s op => applyOp op s) s

/-! ## Helper lemmas -/

theorem keys_setPort (l : List (String × SerialPort)) (d : String)
    (p : SerialPort) : keys (setPort l d p) = keys l := by
  induction l with
  | nil => rfl
  | cons e rest ih =>
    by_cases h : e.1 = d <;> simp [setPort, keys, h] at ih ⊢ <;> exact ih

theorem lookupPort_some_mem {d : String} {p : SerialPort} :
    ∀ {l : List (String × SerialPort)}, lookupPort d l = some p → d ∈ keys l := by
  intro l
  induction l with
  | nil => intro h; simp [lookupPort] at h
  | cons e rest ih =>
    intro h
    by_cases he : e.1 = d
    · simp [keys, he]
    · simp only [lookupPort, he, if_false] at h
      simp only [keys, List.map_cons, List.mem_cons]
      exact Or.inr (ih h)

theorem reset_port_frame (s : HandlerState) (d : String) (o : ResetOutcome) :
    (reset_and_reconnect_port s d o).1.excluded_ports = s.excluded_ports
    ∧ (reset_and_reconnect_port s d o).1.is_connected = s.is_connected
    ∧ keys (reset_and_reconnect_port s d o).1.serial_ports =
        keys s.serial_ports := by
  unfold reset_and_reconnect_port
  cases h : lookupPort d s.serial_ports with
  | none => exact ⟨rfl, rfl, rfl⟩
  | some p =>
    by_cases ho : p.is_open <;> cases o <;>
      simp [ho, keys_setPort]

theorem resetAll_frame (oc : String → ResetOutcome) :
    ∀ (ds : List String) (s : HandlerState),
      (resetAll oc s ds).excluded_ports = s.excluded_ports
      ∧ (resetAll oc s ds).is_connected = s.is_connected
      ∧ keys (resetAll oc s ds).serial_ports = keys s.serial_ports := by
  intro ds
  induction ds with
  | nil => exact fun s => ⟨rfl, rfl, rfl⟩
  | cons d rest ih =>
    intro s
    have h1 := reset_port_frame s d (oc d)
    have h2 := ih (reset_and_reconnect_port s d (oc d)).1
    exact ⟨h2.1.trans h1.1, h2.2.1.trans h1.2.1, h2.2.2.trans h1.2.2⟩

theorem portMonitor_state_eq (pd : String) (s : HandlerState) :
    ∀ outs : List ReadOutcome, (portMonitor pd s outs).state = s := by
  intro outs
  induction outs with
  | nil => rfl
  | cons o rest ih => cases o <;> simp [portMonitor, ih]

theorem discoverPorts_connected (ok : String → Bool) :
    ∀ (ps : List String) (s : HandlerState),
      (discoverPorts ok s ps).1.is_connected = s.is_connected := by
  intro ps
  induction ps with
  | nil => exact fun s => rfl
  | cons d rest ih =>
    intro s
    by_cases h1 : d ∈ s.excluded_ports
    · simp [discoverPorts, h1, ih]
    · by_cases h2 : d ∈ keys s.serial_ports
      · simp [discoverPorts, h1, h2, ih]
      · by_cases h3 : ok d <;> simp [discoverPorts, h1, h2, h3, ih]

theorem applyOp_ready (op : HandlerOp) (s : HandlerState)
    (h : s.is_connected = true) : (applyOp op s).is_connected = true := by
  cases op with
  | sendMsg m w => simp [applyOp, send_message, h]
  | resetPort d o => rw [applyOp, (reset_port_frame s d o).2.1]; exact h
  | resetPorts o =>
    rw [applyOp, reset_and_reconnect_ports, (resetAll_frame o _ s).2.1]
    exact h
  | discover ps ok o =>
    rw [applyOp, setupRound]
    by_cases hc : 0 < (discoverPorts ok s ps).2.1
    · simp only [hc, if_true]
      rw [(resetAll_frame o _ _).2.1]
    · simp only [hc, if_false]
      rw [discoverPorts_connected]; exact h
  | monitor pd outs => rw [applyOp, portMonitor_state_eq]; exact h
  | doCleanup => simp [applyOp, cleanup]; exact h

/-! ## Theorems -/

/-- C1: `_parse_serial_data` applies its rules in priority order: the
empty line yields no event; an exactly-8-character alphanumeric line
yields RFID_DETECTED with the raw line preserved; the single legacy token
"a" yields RFID_DETECTED; a line accepted by the float parser (and caught
by no earlier rule) yields SCORE_RECEIVED carrying the parsed value;
anything else yields UNKNOWN with the raw line preserved.  The function is
a pure Lean function, hence deterministic and side-effect-free by
construction.  (An 8-character alphanumeric line is nonempty and differs
from "a", so the second conjunct needs no extra guards.) -/
theorem parse_serial_data_priority {α : Type} (f : Char → Bool)
    (pf : String → Option α) :
    _parse_serial_data f pf "" = none
    ∧ (∀ s : String, s.length = 8 → pyIsalnum f s = true →
        _parse_serial_data f pf s =
          some { kind := .RFID_DETECTED, source := .SERIAL, raw := s })
    ∧ _parse_serial_data f pf "a" =
        some { kind := .RFID_DETECTED, source := .SERIAL, raw := "a" }
    ∧ (∀ s v, s ≠ "" → ¬ (s.length = 8 ∧ pyIsalnum f s = true) → s ≠ "a" →
        pf s = some v →
        _parse_serial_data f pf s =
          some { kind := .SCORE_RECEIVED, source := .SERIAL, raw := s,
                 score := some v })
    ∧ (∀ s, s ≠ "" → ¬ (s.length = 8 ∧ pyIsalnum f s = true) → s ≠ "a" →
        pf s = none →
        _parse_serial_data f pf s =
          some { kind := .UNKNOWN, source := .SERIAL, raw := s }) := by
  refine ⟨by simp [_parse_serial_data, show "".isEmpty = true from rfl], ?_, ?_, ?_, ?_⟩
  · intro s hlen halnum
    have hne : ¬ s.isEmpty := by
      simp [String.isEmpty_iff]
      intro h
      rw [h] at hlen
      simp at hlen
    simp [_parse_serial_data, hne, hlen, halnum]
  · simp [_parse_serial_data, show "a".isEmpty = false from rfl,
      show ("a".length == 8) = false from rfl]
  · intro s v hne h8 ha hpf
    have hemp : ¬ s.isEmpty := by simpa [String.isEmpty_iff] using hne
    have h8' : ¬ (s.length == 8 && pyIsalnum f s) = true := by
      simpa [Bool.and_eq_true] using h8
    simp [_parse_serial_data, hemp, h8', ha, hpf]
  · intro s hne h8 ha hpf
    have hemp : ¬ s.isEmpty := by simpa [String.isEmpty_iff] using hne
    have h8' : ¬ (s.length == 8 && pyIsalnum f s) = true := by
      simpa [Bool.and_eq_true] using h8
    simp [_parse_serial_data, hemp, h8', ha, hpf]

/-- Witness for C1: the priority rules evaluated at concrete lines (an
8-character RFID tag, a float line, and a non-numeric line), with the
per-character test instantiated to ASCII alphanumericity and the float
parser to a parser that accepts exactly "12.5". -/
theorem parse_serial_data_priority_witness :
    _parse_serial_data Char.isAlphanum
        (fun s => if s = "12.5" then some (125 : Int) else none) "AB12CD34" =
      some { kind := .RFID_DETECTED, source := .SERIAL, raw := "AB12CD34" }
    ∧ _parse_serial_data Char.isAlphanum
        (fun s => if s = "12.5" then some (125 : Int) else none) "12.5" =
      some { kind := .SCORE_RECEIVED, source := .SERIAL, raw := "12.5",
             score := some 125 }
    ∧ _parse_serial_data Char.isAlphanum
        (fun s => if s = "12.5" then some (125 : Int) else none) "hello" =
      some { kind := .UNKNOWN, source := .SERIAL, raw := "hello" } := by
  have h := parse_serial_data_priority Char.isAlphanum
    (fun s => if s = "12.5" then some (125 : Int) else none)
  exact ⟨h.2.1 "AB12CD34" (by decide) (by decide),
    h.2.2.2.1 "12.5" 125 (by decide) (by decide) (by decide) (by decide),
    h.2.2.2.2 "hello" (by decide) (by decide) (by decide) (by decide)⟩

/-- C2: readiness of the serial multi-port handler is monotonic — once
`is_ready()` has returned true, no finite trace of subsequent operations
(broadcast sends, single-port resets, the reset-all pass, discovery
rounds, monitor runs including read failures, and `cleanup` with its port
closes) ever makes `is_ready()` return false again: no operation ever
assigns `is_connected = False`. -/
theorem is_ready_monotonic (ops : List HandlerOp) (s : HandlerState)
    (h : is_ready s = true) : is_ready (runOps ops s) = true := by
  induction ops generalizing s with
  | nil => exact h
  | cons op rest ih => exact ih (applyOp op s) (applyOp_ready op s h)

/-- Witness for C2: a ready one-port handler stays ready across a
cleanup, a failing reset, a failing broadcast write, and a monitor read
failure. -/
theorem is_ready_monotonic_witness :
    is_ready (runOps
      [HandlerOp.doCleanup,
       HandlerOp.resetPort "p1" ResetOutcome.failReopen,
       HandlerOp.sendMsg "5" (fun _ => false),
       HandlerOp.monitor "p1" [ReadOutcome.err]]
      { serial_ports := [("p1", freshPort)], excluded_ports := [],
        is_connected := true }) = true :=
  is_ready_monotonic _ _ rfl

/-- C4: calling `send_message` before any link has ever connected
(`is_connected` false) performs zero writes — the whole state is returned
unchanged — does not raise, and its success count is zero (the code takes
the early logged return before touching any port). -/
theorem send_message_not_ready (s : HandlerState) (m : String)
    (w : String → Bool) (h : s.is_connected = false) :
    send_message s m w = (s, 0) := by
  simp [send_message, h]

/-- Witness for C4: a not-yet-connected handler with one registered open
port: the send changes nothing and counts zero successes. -/
theorem send_message_not_ready_witness :
    send_message
      { serial_ports := [("p1", freshPort)], excluded_ports := [],
        is_connected := false } "7" (fun _ => true) =
    ({ serial_ports := [("p1", freshPort)], excluded_ports := [],
       is_connected := false }, 0) :=
  send_message_not_ready _ "7" _ rfl

/-- C9: the reset-all operation is safe to invoke repeatedly and acts
only on identities currently in the registry: it never adds or removes a
key (so repeated invocations see the same identities), it leaves
`excluded_ports` and `is_connected` untouched, and on an empty registry
it is the identity — the key snapshot is empty, so zero per-port resets
are attempted and nothing can crash. -/
theorem reset_ports_props (s : HandlerState) (oc : String → ResetOutcome) :
    (s.serial_ports = [] → reset_and_reconnect_ports s oc = s)
    ∧ keys (reset_and_reconnect_ports s oc).serial_ports =
        keys s.serial_ports
    ∧ (reset_and_reconnect_ports s oc).excluded_ports = s.excluded_ports
    ∧ (reset_and_reconnect_ports s oc).is_connected = s.is_connected := by
  refine ⟨?_, (resetAll_frame oc _ s).2.2, (resetAll_frame oc _ s).1,
    (resetAll_frame oc _ s).2.1⟩
  intro h
  simp [reset_and_reconnect_ports, keys, h, resetAll]

/-- Witness for C9: reset-all on an empty registry is the identity, and
on a one-port registry it preserves the key set and the flags. -/
theorem reset_ports_props_witness :
    reset_and_reconnect_ports
      { serial_ports := [], excluded_ports := [], is_connected := false }
      (fun _ => ResetOutcome.success) =
      { serial_ports := [], excluded_ports := [], is_connected := false }
    ∧ keys (reset_and_reconnect_ports
        { serial_ports := [("p1", freshPort)], excluded_ports := [],
          is_connected := true }
        (fun _ => ResetOutcome.failReopen)).serial_ports = ["p1"] :=
  ⟨(reset_ports_props _ _).1 rfl, (reset_ports_props _ _).2.1⟩

/-- C10: resetting a device that is not in the registry returns `False`
without raising and leaves the whole handler state — registry, readiness
flag, and every port — exactly as it was. -/
theorem reset_port_absent (s : HandlerState) (d : String) (o : ResetOutcome)
    (h : lookupPort d s.serial_ports = none) :
    reset_and_reconnect_port s d o = (s, some false) := by
  simp [reset_and_reconnect_port, h]

/-- Witness for C10: resetting the unknown device "p2" on a one-port
handler changes nothing and returns `False`. -/
theorem reset_port_absent_witness :
    reset_and_reconnect_port
      { serial_ports := [("p1", freshPort)], excluded_ports := [],
        is_connected := true } "p2" ResetOutcome.success =
    ({ serial_ports := [("p1", freshPort)], excluded_ports := [],
       is_connected := true }, some false) :=
  reset_port_absent _ "p2" _ (by decide)

/-- Counterexample for C3: a one-port handler whose reset fails at the
reopen step.  The call returns `False` without crashing, but — contrary to
the claim — the device's identity is still in the Link Registry
afterwards (the registry entry is merely left holding the closed old port
object), so it is *not* eligible for fresh discovery. -/
theorem reset_port_failure_not_removed :
    (reset_and_reconnect_port
      { serial_ports := [("p1", freshPort)], excluded_ports := [],
        is_connected := true } "p1" ResetOutcome.failReopen).2 = some false
    ∧ "p1" ∈ keys (reset_and_reconnect_port
      { serial_ports := [("p1", freshPort)], excluded_ports := [],
        is_connected := true } "p1"
        ResetOutcome.failReopen).1.serial_ports := by
  exact ⟨rfl, by decide⟩

/-- C3 (amended): when the per-link reset protocol fails
(control-signal toggle or reopen raises), `reset_and_reconnect_port`
returns `False` and does not crash, but the link's identity *stays* in
the Link Registry (the key set is unchanged, so the device is not
eligible for fresh discovery); the readiness flag is untouched. -/
theorem reset_port_failure_behavior (s : HandlerState) (d : String)
    (p : SerialPort) (o : ResetOutcome)
    (hp : lookupPort d s.serial_ports = some p) (ho : p.is_open = true)
    (hf : o ≠ ResetOutcome.success) :
    (reset_and_reconnect_port s d o).2 = some false
    ∧ d ∈ keys (reset_and_reconnect_port s d o).1.serial_ports
    ∧ keys (reset_and_reconnect_port s d o).1.serial_ports =
        keys s.serial_ports
    ∧ (reset_and_reconnect_port s d o).1.is_connected = s.is_connected := by
  have hkeys := (reset_port_frame s d o).2.2
  have hconn := (reset_port_frame s d o).2.1
  have hmem : d ∈ keys s.serial_ports := lookupPort_some_mem hp
  refine ⟨?_, hkeys ▸ hmem, hkeys, hconn⟩
  cases o with
  | success => exact absurd rfl hf
  | failToggle => simp [reset_and_reconnect_port, hp, ho]
  | failReopen => simp [reset_and_reconnect_port, hp, ho]

/-- Witness for C3 (amended): the failing reset of the example handler
returns `False`, keeps "p1" registered, and preserves the flags. -/
theorem reset_port_failure_behavior_witness :
    (reset_and_reconnect_port
      { serial_ports := [("p1", freshPort)], excluded_ports := [],
        is_connected := true } "p1" ResetOutcome.failToggle).2 = some false
    ∧ "p1" ∈ keys (reset_and_reconnect_port
        { serial_ports := [("p1", freshPort)], excluded_ports := [],
          is_connected := true } "p1"
          ResetOutcome.failToggle).1.serial_ports := by
  have h := reset_port_failure_behavior
    { serial_ports := [("p1", freshPort)], excluded_ports := [],
      is_connected := true } "p1" freshPort ResetOutcome.failToggle
    (by decide) rfl (by decide)
  exact ⟨h.1, h.2.1⟩

theorem writeAll_eq (w : String → Bool) (m : String) :
    ∀ l : List (String × SerialPort),
      writeAll w m l =
        (l.map (fun e => if e.2.is_open && w e.1
            then (e.1, { e.2 with written := e.2.written ++ [m ++ "\n"] })
            else e),
         (l.filter (fun e => e.2.is_open && w e.1)).length) := by
  intro l
  induction l with
  | nil => rfl
  | cons e rest ih =>
    by_cases h : (e.2.is_open && w e.1) = true
    · have h' : e.2.is_open = true ∧ w e.1 = true := by
        simpa [Bool.and_eq_true] using h
      simp [writeAll, ih, List.filter_cons, h, h'.1, h'.2]
    · have h' : ¬ (e.2.is_open = true ∧ w e.1 = true) := by
        simpa [Bool.and_eq_true] using h
      simp [writeAll, ih, List.filter_cons, h, h']

theorem filter_ne_key_of_not_mem (k : String) :
    ∀ l : List (String × SerialPort), k ∉ keys l →
      l.filter (fun e => !(e.1 == k)) = l := by
  intro l
  induction l with
  | nil => intro _; rfl
  | cons e rest ih =>
    intro h
    simp only [keys, List.map_cons, List.mem_cons, not_or] at h
    have he : (!(e.1 == k)) = true := by
      simp only [Bool.not_eq_eq_eq_not, Bool.not_true, beq_eq_false_iff_ne]
      exact fun hh => h.1 (hh ▸ rfl)
    rw [List.filter_cons, if_pos he, ih h.2]

theorem length_filter_ne_key (k : String) :
    ∀ l : List (String × SerialPort), (keys l).Nodup → k ∈ keys l →
      (l.filter (fun e => !(e.1 == k))).length = l.length - 1 := by
  intro l
  induction l with
  | nil => intro _ hk; simp [keys] at hk
  | cons e rest ih =>
    intro hnd hk
    simp only [keys, List.map_cons, List.nodup_cons] at hnd
    by_cases h : e.1 = k
    · have hnot : k ∉ keys rest := h ▸ hnd.1
      rw [List.filter_cons, if_neg (by simp [h]),
        filter_ne_key_of_not_mem k rest hnot]
      simp
    · have hk' : k ∈ keys rest := by
        simp only [keys, List.map_cons, List.mem_cons] at hk
        rcases hk with h1 | h2
        · exact absurd h1.symm h
        · exact h2
      have hne : rest ≠ [] := by
        intro hnil
        rw [hnil] at hk'
        simp [keys] at hk'
      have hlen : 1 ≤ rest.length := List.length_pos.mpr hne
      have hcond : (!(e.1 == k)) = true := by
        simp only [Bool.not_eq_eq_eq_not, Bool.not_true, beq_eq_false_iff_ne]
        exact fun hh => h hh
      rw [List.filter_cons, if_pos hcond, List.length_cons, ih hnd.2 hk',
        List.length_cons]
      omega

/-- C5: with the handler connected and every one of its N registered
links open, if the write on exactly one link k always throws, then
`send_message` still writes the terminated message to each of the other
N−1 links (each per-link failure is caught and the broadcast continues)
and its success count is N−1. -/
theorem send_message_single_failure (s : HandlerState) (m k : String)
    (hconn : s.is_connected = true)
    (hnd : (keys s.serial_ports).Nodup)
    (hk : k ∈ keys s.serial_ports)
    (hopen : ∀ e ∈ s.serial_ports, e.2.is_open = true) :
    (send_message s m (fun d => !(d == k))).2 = s.serial_ports.length - 1
    ∧ ∀ e ∈ s.serial_ports, e.1 ≠ k →
        (e.1, { e.2 with written := e.2.written ++ [m ++ "\n"] })
          ∈ (send_message s m (fun d => !(d == k))).1.serial_ports := by
  have hfc : s.serial_ports.filter (fun e => e.2.is_open && !(e.1 == k))
      = s.serial_ports.filter (fun e => !(e.1 == k)) :=
    List.filter_congr (fun e he => by rw [hopen e he, Bool.true_and])
  constructor
  · rw [send_message]
    simp only [hconn, Bool.not_true, Bool.false_eq_true, if_false]
    rw [writeAll_eq]
    rw [hfc, length_filter_ne_key k s.serial_ports hnd hk]
  · intro e he hek
    have hcond : (e.2.is_open && !(e.1 == k)) = true := by
      rw [hopen e he]
      simp [hek]
    have hmem := List.mem_map_of_mem
      (fun e : String × SerialPort => if e.2.is_open && !(e.1 == k)
        then (e.1, { e.2 with written := e.2.written ++ [m ++ "\n"] })
        else e) he
    simp only [hcond, if_true] at hmem
    rw [send_message]
    simp only [hconn, Bool.not_true, Bool.false_eq_true, if_false,
      writeAll_eq]
    exact hmem

/-- Witness for C5: two open ports "p1", "p2" with the write on "p2"
always throwing: the count is 1 and "p1" received the terminated
message. -/
theorem send_message_single_failure_witness :
    (send_message
      { serial_ports := [("p1", freshPort), ("p2", freshPort)],
        excluded_ports := [], is_connected := true } "5"
      (fun d => !(d == "p2"))).2 = 1
    ∧ ("p1", { is_open := true, written := ["5\n"] }) ∈
        (send_message
          { serial_ports := [("p1", freshPort), ("p2", freshPort)],
            excluded_ports := [], is_connected := true } "5"
          (fun d => !(d == "p2"))).1.serial_ports := by
  have h := send_message_single_failure
    { serial_ports := [("p1", freshPort), ("p2", freshPort)],
      excluded_ports := [], is_connected := true } "5" "p2"
    rfl (by decide) (by decide) (by decide)
  exact ⟨h.1, h.2 ("p1", freshPort) (by decide) (by decide)⟩

theorem discoverPorts_spec (ok : String → Bool) (q : String) :
    ∀ (ps : List String) (s : HandlerState),
      (discoverPorts ok s ps).1.excluded_ports = s.excluded_ports
      ∧ (q ∈ s.excluded_ports → q ∉ (discoverPorts ok s ps).2.2)
      ∧ (q ∈ keys s.serial_ports →
          q ∉ (discoverPorts ok s ps).2.2
          ∧ q ∈ keys (discoverPorts ok s ps).1.serial_ports) := by
  intro ps
  induction ps with
  | nil => intro s; simp [discoverPorts]
  | cons d rest ih =>
    intro s
    by_cases h1 : d ∈ s.excluded_ports
    · simpa [discoverPorts, h1] using ih s
    · by_cases h2 : d ∈ keys s.serial_ports
      · simpa [discoverPorts, h1, h2] using ih s
      · by_cases h3 : ok d
        · have hred : discoverPorts ok s (d :: rest) =
              ((discoverPorts ok
                  { s with serial_ports := s.serial_ports ++ [(d, freshPort)] }
                  rest).1,
               (discoverPorts ok
                  { s with serial_ports := s.serial_ports ++ [(d, freshPort)] }
                  rest).2.1 + 1,
               d :: (discoverPorts ok
                  { s with serial_ports := s.serial_ports ++ [(d, freshPort)] }
                  rest).2.2) := by
            simp [discoverPorts, h1, h2, h3]
          have ih' := ih
            { s with serial_ports := s.serial_ports ++ [(d, freshPort)] }
          rw [hred]
          refine ⟨ih'.1, ?_, ?_⟩
          · intro hq
            simp only [List.mem_cons, not_or]
            exact ⟨fun hqd => h1 (hqd ▸ hq), ih'.2.1 hq⟩
          · intro hq
            have hq' : q ∈ keys (s.serial_ports ++ [(d, freshPort)]) := by
              rw [keys, List.map_append]
              exact List.mem_append_left _ hq
            refine ⟨?_, (ih'.2.2 hq').2⟩
            simp only [List.mem_cons, not_or]
            exact ⟨fun hqd => h2 (hqd ▸ hq), (ih'.2.2 hq').1⟩
        · have hred : discoverPorts ok s (d :: rest) =
              ((discoverPorts ok s rest).1,
               (discoverPorts ok s rest).2.1,
               d :: (discoverPorts ok s rest).2.2) := by
            simp [discoverPorts, h1, h2, h3]
          have ih' := ih s
          rw [hred]
          refine ⟨ih'.1, ?_, ?_⟩
          · intro hq
            simp only [List.mem_cons, not_or]
            exact ⟨fun hqd => h1 (hqd ▸ hq), ih'.2.1 hq⟩
          · intro hq
            refine ⟨?_, (ih'.2.2 hq).2⟩
            simp only [List.mem_cons, not_or]
            exact ⟨fun hqd => h2 (hqd ▸ hq), (ih'.2.2 hq).1⟩

theorem setupRound_spec (q : String) (s : HandlerState) (ps : List String)
    (ok : String → Bool) (oc : String → ResetOutcome) :
    (setupRound s ps ok oc).1.excluded_ports = s.excluded_ports
    ∧ (q ∈ s.excluded_ports → q ∉ (setupRound s ps ok oc).2)
    ∧ (q ∈ keys s.serial_ports →
        q ∉ (setupRound s ps ok oc).2
        ∧ q ∈ keys (setupRound s ps ok oc).1.serial_ports) := by
  have hd := discoverPorts_spec ok q ps s
  simp only [setupRound]
  by_cases hc : 0 < (discoverPorts ok s ps).2.1
  · simp only [hc, if_true]
    have hra := resetAll_frame oc
      (keys (discoverPorts ok s ps).1.serial_ports)
      { (discoverPorts ok s ps).1 with is_connected := true }
    refine ⟨hra.1.trans hd.1, fun hq => hd.2.1 hq,
      fun hq => ⟨(hd.2.2 hq).1, ?_⟩⟩
    have : keys (resetAll oc
        { (discoverPorts ok s ps).1 with is_connected := true }
        (keys (discoverPorts ok s ps).1.serial_ports)).serial_ports =
        keys (discoverPorts ok s ps).1.serial_ports := hra.2.2
    rw [this]
    exact (hd.2.2 hq).2
  · simp only [hc, if_false]
    exact hd

theorem setupLoop_spec (q : String) :
    ∀ (rounds :
        List (List String × (String → Bool) × (String → ResetOutcome)))
      (s : HandlerState),
      (q ∈ s.excluded_ports → q ∉ (setupLoop s rounds).2)
      ∧ (q ∈ keys s.serial_ports → q ∉ (setupLoop s rounds).2) := by
  intro rounds
  induction rounds with
  | nil => intro s; simp [setupLoop]
  | cons r rest ih =>
    intro s
    obtain ⟨ps, ok, oc⟩ := r
    by_cases hc : s.is_connected
    · simp [setupLoop, hc]
    · have hr := setupRound_spec q s ps ok oc
      have ih' := ih (setupRound s ps ok oc).1
      have hred : setupLoop s ((ps, ok, oc) :: rest) =
          ((setupLoop (setupRound s ps ok oc).1 rest).1,
           (setupRound s ps ok oc).2 ++
             (setupLoop (setupRound s ps ok oc).1 rest).2) := by
        simp [setupLoop, hc]
      rw [hred]
      constructor
      · intro hq
        simp only [List.mem_append, not_or]
        exact ⟨hr.2.1 hq, ih'.1 (hr.1.symm ▸ hq)⟩
      · intro hq
        simp only [List.mem_append, not_or]
        exact ⟨(hr.2.2 hq).1, ih'.2 (hr.2.2 hq).2⟩

/-- C6: in every discovery round of the `setup_worker` loop, a candidate
device identity in the excluded-device list is never attempted (no open is
ever tried on it), and an identity already present in the Link Registry is
skipped rather than re-opened — both for a single round and across any
number of rounds of the supervisor loop. -/
theorem discovery_skips_excluded_and_registered (s : HandlerState)
    (q : String) (ps : List String) (ok : String → Bool)
    (oc : String → ResetOutcome)
    (rounds :
      List (List String × (String → Bool) × (String → ResetOutcome))) :
    (q ∈ s.excluded_ports →
      q ∉ (setupRound s ps ok oc).2 ∧ q ∉ (setupLoop s rounds).2)
    ∧ (q ∈ keys s.serial_ports →
      q ∉ (setupRound s ps ok oc).2 ∧ q ∉ (setupLoop s rounds).2) := by
  have hr := setupRound_spec q s ps ok oc
  have hl := setupLoop_spec q rounds s
  exact ⟨fun hq => ⟨hr.2.1 hq, hl.1 hq⟩,
    fun hq => ⟨(hr.2.2 hq).1, hl.2 hq⟩⟩

/-- Witness for C6: a handler that excludes "/dev/cu.BT-RY" and already
registers "p1" never attempts either device in a concrete round offering
both plus a new device "p2". -/
theorem discovery_skips_witness :
    ("/dev/cu.BT-RY" ∉ (setupRound
      { serial_ports := [("p1", freshPort)],
        excluded_ports := ["/dev/cu.BT-RY"], is_connected := false }
      ["/dev/cu.BT-RY", "p1", "p2"] (fun _ => true)
      (fun _ => ResetOutcome.success)).2)
    ∧ ("p1" ∉ (setupRound
      { serial_ports := [("p1", freshPort)],
        excluded_ports := ["/dev/cu.BT-RY"], is_connected := false }
      ["/dev/cu.BT-RY", "p1", "p2"] (fun _ => true)
      (fun _ => ResetOutcome.success)).2) := by
  have h := discovery_skips_excluded_and_registered
    { serial_ports := [("p1", freshPort)],
      excluded_ports := ["/dev/cu.BT-RY"], is_connected := false }
    "/dev/cu.BT-RY" ["/dev/cu.BT-RY", "p1", "p2"] (fun _ => true)
    (fun _ => ResetOutcome.success) []
  have h' := discovery_skips_excluded_and_registered
    { serial_ports := [("p1", freshPort)],
      excluded_ports := ["/dev/cu.BT-RY"], is_connected := false }
    "p1" ["/dev/cu.BT-RY", "p1", "p2"] (fun _ => true)
    (fun _ => ResetOutcome.success) []
  exact ⟨(h.1 (by decide)).1, (h'.2 (by decide)).1⟩

/-- Counterexample for C7: in the TCP variant, `send_message` does *not*
append a line terminator — on a connected socket the wire log after
sending "3" holds exactly "3", which is not the terminated "3\n". -/
theorem tcp_send_no_terminator :
    (tcp_send_message
      { tcp_socket := some { sent := [] }, is_connected := true }
      "3" true).tcp_socket = some { sent := ["3"] }
    ∧ ("3" : String) ≠ "3" ++ "\n" := by
  exact ⟨rfl, by decide⟩

/-- C7 (amended): when the system is ready, the serial variant appends a
line terminator to the message and writes the terminated message to every
port currently marked open (closed ports are left untouched); the TCP
variant writes the message to the socket but *without* appending any
terminator. -/
theorem send_message_when_ready (s : HandlerState) (m : String)
    (hconn : s.is_connected = true) (ts : TCPState) (sock : TCPSocket)
    (hs : ts.tcp_socket = some sock) (hc : ts.is_connected = true) :
    (send_message s m (fun _ => true)).1.serial_ports =
      s.serial_ports.map (fun e =>
        if e.2.is_open
        then (e.1, { e.2 with written := e.2.written ++ [m ++ "\n"] })
        else e)
    ∧ tcp_send_message ts m true =
        { ts with tcp_socket := some { sock with sent := sock.sent ++ [m] } } := by
  constructor
  · rw [send_message]
    simp only [hconn, Bool.not_true, Bool.false_eq_true, if_false,
      writeAll_eq, Bool.and_true]
  · rw [tcp_send_message]
    simp [hs, hc]

/-- Witness for C7 (amended): a ready serial handler with one open and
one closed port, and a connected TCP handler, sending "42": the open port
receives "42\n", the closed port nothing, and the socket receives the
unterminated "42". -/
theorem send_message_when_ready_witness :
    (send_message
      { serial_ports :=
          [("p1", freshPort), ("p2", { is_open := false, written := [] })],
        excluded_ports := [], is_connected := true } "42"
      (fun _ => true)).1.serial_ports =
      [("p1", { is_open := true, written := ["42\n"] }),
       ("p2", { is_open := false, written := [] })]
    ∧ tcp_send_message
        { tcp_socket := some { sent := [] }, is_connected := true }
        "42" true =
      { tcp_socket := some { sent := ["42"] }, is_connected := true } := by
  have h := send_message_when_ready
    { serial_ports :=
        [("p1", freshPort), ("p2", { is_open := false, written := [] })],
      excluded_ports := [], is_connected := true } "42" rfl
    { tcp_socket := some { sent := [] }, is_connected := true }
    { sent := [] } rfl rfl
  exact ⟨h.1.trans (by decide), h.2⟩

theorem tcpMonitor_stuck (s : TCPState)
    (h : (s.tcp_socket.isSome && s.is_connected) = false) :
    ∀ outs : List TCPReadOutcome,
      tcpMonitor s outs = { state := s, msgs := [], log := [], exited := false } := by
  intro outs
  induction outs with
  | nil => rfl
  | cons o rest ih => simp [tcpMonitor, h, ih]

/-- Counterexample for C8: on a connected TCP handler, a single read
exception leaves the monitor loop running (`exited = false`; the
`while True:` body has no `break`) and logs nothing (the bare `except:`
prints no error) — contrary to the claim that *every* monitor logs the
error and terminates its read loop.  (It also clears `is_connected`,
which the supposedly supervisor-only recovery story does not mention.) -/
theorem tcp_monitor_err_not_logged_not_exited :
    (tcpMonitor { tcp_socket := some { sent := [] }, is_connected := true }
      [TCPReadOutcome.err]).exited = false
    ∧ (tcpMonitor { tcp_socket := some { sent := [] }, is_connected := true }
      [TCPReadOutcome.err]).log = []
    ∧ (tcpMonitor { tcp_socket := some { sent := [] }, is_connected := true }
      [TCPReadOutcome.err]).state.is_connected = false := by
  exact ⟨rfl, rfl, rfl⟩

/-- C8 (amended): the serial per-port monitor behaves as the claim says —
it never mutates the handler state (in particular the Link Registry), and
on any read exception it logs the error and exits its loop, reading
nothing further.  The TCP monitor, however, on a read exception logs
nothing and never exits its `while True:` loop; it clears the
`is_connected` flag (after which it performs no further reads or
callbacks) but leaves the Link Registry — the socket reference —
untouched. -/
theorem monitor_read_failure_behavior (pd : String) (s : HandlerState)
    (outs rest : List ReadOutcome) (ts : TCPState)
    (trest : List TCPReadOutcome)
    (hs : ts.tcp_socket.isSome = true) (hc : ts.is_connected = true) :
    (portMonitor pd s outs).state = s
    ∧ portMonitor pd s (ReadOutcome.err :: rest) =
        { state := s, raws := [], log := [readErrorLog pd], exited := true }
    ∧ tcpMonitor ts (TCPReadOutcome.err :: trest) =
        { state := { ts with is_connected := false }, msgs := [], log := [],
          exited := false }
    ∧ (tcpMonitor ts (TCPReadOutcome.err :: trest)).state.tcp_socket =
        ts.tcp_socket := by
  have herr : tcpMonitor ts (TCPReadOutcome.err :: trest) =
      { state := { ts with is_connected := false }, msgs := [], log := [],
        exited := false } := by
    rw [tcpMonitor]
    simp only [hs, hc, Bool.and_self, if_true]
    exact tcpMonitor_stuck { ts with is_connected := false }
      (by simp) trest
  exact ⟨portMonitor_state_eq pd s outs, rfl, herr, by rw [herr]⟩

/-- Witness for C8 (amended): concrete one-port serial handler and
connected TCP handler, each hitting a read exception. -/
theorem monitor_read_failure_behavior_witness :
    (portMonitor "p1"
      { serial_ports := [("p1", freshPort)], excluded_ports := [],
        is_connected := true }
      [ReadOutcome.ok "12.5", ReadOutcome.err]).state =
      { serial_ports := [("p1", freshPort)], excluded_ports := [],
        is_connected := true }
    ∧ portMonitor "p1"
        { serial_ports := [("p1", freshPort)], excluded_ports := [],
          is_connected := true }
        [ReadOutcome.err] =
        { state :=
            { serial_ports := [("p1", freshPort)], excluded_ports := [],
              is_connected := true },
          raws := [], log := [readErrorLog "p1"], exited := true }
    ∧ tcpMonitor { tcp_socket := some { sent := [] }, is_connected := true }
        [TCPReadOutcome.err] =
        { state :=
            { tcp_socket := some { sent := [] }, is_connected := false },
          msgs := [], log := [], exited := false } := by
  have h := monitor_read_failure_behavior "p1"
    { serial_ports := [("p1", freshPort)], excluded_ports := [],
      is_connected := true }
    [ReadOutcome.ok "12.5", ReadOutcome.err] []
    { tcp_socket := some { sent := [] }, is_connected := true } []
    rfl rfl
  exact ⟨h.1, h.2.1, h.2.2.1⟩
